import Mathlib

/-!
Verification of the TH Flood SOS dashboard's ingestion-and-normalization
pipeline (`main.py` and `pages/Summary Dashboard.py`).

Python values that flow through the pipeline are modelled by `JValue`;
Python's `None` is `JValue.jnull`, so "absent" fields are `jnull`.
Operations that can raise a Python exception return `Except String _`
with the exception's class name as the error value.
-/

/-- A Python/JSON value as it appears in the feed and in the `location`
payloads: `None`, booleans, numbers, strings, lists and dicts. -/
inductive JValue where
  | jnull : JValue
  | jbool : Bool → JValue
  | jnum : Int → JValue
  | jstr : String → JValue
  | jarr : List JValue → JValue
  | jobj : List (String × JValue) → JValue
deriving Repr

/-- Python truthiness: `None`, `False`, `0`, `""`, `[]`, `{}` are falsy. -/
def JValue.truthy : JValue → Bool
  | .jnull => false
  | .jbool b => b
  | .jnum n => !(n == 0)
  | .jstr s => !(s == "")
  | .jarr [] => false
  | .jarr (_ :: _) => true
  | .jobj [] => false
  | .jobj (_ :: _) => true

/-- Python's `x is None` test. -/
def JValue.isNull : JValue → Bool
  | .jnull => true
  | _ => false

/-- Python's `a or b`: `a` if truthy, else `b`. -/
def por (a b : JValue) : JValue := if a.truthy then a else b

/-- Python's `obj.get(key, default)`: only mappings have `.get`; any
other receiver raises `AttributeError`. A missing key yields the default. -/
def pyGet (o : JValue) (k : String) (d : JValue) : Except String JValue :=
  match o with
  | .jobj kvs => .ok ((kvs.lookup k).getD d)
  | _ => .error "AttributeError"

/-- Python's `obj[i]` for a non-negative integer index: lists index into
their elements, strings into one-character strings (`IndexError` out of
range); dicts raise `KeyError` (no such integer key in these payloads)
and other values raise `TypeError`. -/
def pyIndex (o : JValue) (i : Nat) : Except String JValue :=
  match o with
  | .jarr xs =>
    if h : i < xs.length then .ok (xs.get ⟨i, h⟩) else .error "IndexError"
  | .jstr s =>
    if h : i < s.length then .ok (.jstr (String.mk [s.data.get ⟨i, h⟩]))
    else .error "IndexError"
  | .jobj _ => .error "KeyError"
  | _ => .error "TypeError"

/-- `dict.get(key)` on a known dict (default `None`). -/
def pget (kvs : List (String × JValue)) (k : String) : JValue :=
  (kvs.lookup k).getD .jnull

/-- The flat record produced by `parse_location` in `main.py`: all
eleven `out` fields, each initialised to `None`. -/
structure NormalizedLocation where
  longitude : JValue
  latitude : JValue
  status : JValue
  status_text : JValue
  type_name : JValue
  province : JValue
  district : JValue
  subdistrict : JValue
  address : JValue
  description : JValue
  sos_status : JValue
deriving Repr

/-- The all-absent `out` dict `parse_location` starts from. -/
def emptyLoc : NormalizedLocation :=
  ⟨.jnull, .jnull, .jnull, .jnull, .jnull, .jnull, .jnull, .jnull, .jnull,
   .jnull, .jnull⟩

/-- Body of `main.py`'s `parse_location` once `loc` is in hand
(`main.py:81-124`): geometry/coordinates first, then the `properties`
alias chains and the two post-resolution fallbacks. Python raises at the
first `.get` on a non-mapping `properties`, which the single match on
`props` captures. -/
def parseLocCore (loc : JValue) : Except String NormalizedLocation :=
  match pyGet loc "geometry" (.jobj []) with
  | .error e => .error e
  | .ok geom =>
  match pyGet geom "coordinates" (.jarr [.jnull, .jnull]) with
  | .error e => .error e
  | .ok coords =>
  match pyIndex coords 0 with
  | .error e => .error e
  | .ok lon =>
  match pyIndex coords 1 with
  | .error e => .error e
  | .ok lat =>
  match pyGet loc "properties" (.jobj []) with
  | .error e => .error e
  | .ok props0 =>
  match por props0 (.jobj []) with
  | .jobj pk =>
    let status := pget pk "status"
    let status_text := por (pget pk "status_text") (pget pk "status")
    let type_name :=
      por (pget pk "type_name")
        (por (pget pk "help_type") (por (pget pk "disease") (pget pk "category")))
    let province :=
      por (pget pk "province") (por (pget pk "province_name") (pget pk "changwat"))
    let district := por (pget pk "district") (pget pk "amphoe")
    let subdistrict :=
      por (pget pk "subdistrict") (por (pget pk "sub_district") (pget pk "tambon"))
    let address := pget pk "address"
    let description := pget pk "description"
    let sos_status := pget pk "sos_status"
    let status := if status.isNull && !sos_status.isNull then sos_status else status
    let status_text := if status_text.isNull && !status.isNull then status else status_text
    .ok ⟨lon, lat, status, status_text, type_name, province, district, subdistrict,
         address, description, sos_status⟩
  | _ => .error "AttributeError"

/-- `parse_location` from `main.py:55-124`. `jsonLoads` stands for the
`json.loads` library call: `none` models a `json.loads` that raises. -/
def parse_location (jsonLoads : String → Option JValue) (loc_obj : JValue) :
    Except String NormalizedLocation :=
  match loc_obj with
  | .jstr s =>
    match jsonLoads s with
    | none => .ok emptyLoc
    | some loc => parseLocCore loc
  | .jobj kvs => parseLocCore (.jobj kvs)
  | _ => .ok emptyLoc

/-- `main.py:32-40`: accept a dict with a list-valued `data` key, or a
top-level list; anything else is the shape-error branch that returns an
empty DataFrame (no records). -/
def extractRecords (raw : JValue) : Option (List JValue) :=
  match raw with
  | .jobj kvs =>
    match kvs.lookup "data" with
    | some (.jarr xs) => some xs
    | _ => none
  | .jarr xs => some xs
  | _ => none

namespace Summary

/-- The five `out` fields of `parse_location` in
`pages/Summary Dashboard.py:36-82`. -/
structure NormalizedLocation where
  province : JValue
  district : JValue
  subdistrict : JValue
  status_text : JValue
  type_name : JValue
deriving Repr

/-- The all-absent `out` dict of the summary-page parser. -/
def emptyLoc : NormalizedLocation := ⟨.jnull, .jnull, .jnull, .jnull, .jnull⟩

/-- Body of the summary page's `parse_location` once `loc` is in hand
(`pages/Summary Dashboard.py:55-82`): no geometry access, only the
`properties` alias chains. -/
def parseLocCore (loc : JValue) : Except String NormalizedLocation :=
  match pyGet loc "properties" (.jobj []) with
  | .error e => .error e
  | .ok props0 =>
  match por props0 (.jobj []) with
  | .jobj pk =>
    .ok ⟨por (pget pk "province") (por (pget pk "province_name") (pget pk "changwat")),
         por (pget pk "district") (pget pk "amphoe"),
         por (pget pk "subdistrict") (por (pget pk "sub_district") (pget pk "tambon")),
         por (pget pk "status_text") (por (pget pk "status") (pget pk "sos_status")),
         por (pget pk "type_name")
           (por (pget pk "help_type") (por (pget pk "disease") (pget pk "category")))⟩
  | _ => .error "AttributeError"

/-- `parse_location` from `pages/Summary Dashboard.py:36-82`. -/
def parse_location (jsonLoads : String → Option JValue) (loc_obj : JValue) :
    Except String NormalizedLocation :=
  match loc_obj with
  | .jstr s =>
    match jsonLoads s with
    | none => .ok emptyLoc
    | some loc => parseLocCore loc
  | .jobj kvs => parseLocCore (.jobj kvs)
  | _ => .ok emptyLoc

/-- `pages/Summary Dashboard.py:19-22`: use `raw["data"]` whenever `raw`
is a dict containing the key (list-valued or not), otherwise use `raw`
itself; there is no shape-error branch. -/
def extractRecords (raw : JValue) : JValue :=
  match raw with
  | .jobj kvs =>
    match kvs.lookup "data" with
    | some v => v
    | none => .jobj kvs
  | v => v

end Summary

/-! ## The case table and the filter/aggregate code -/

/-- One row of the normalized table, restricted to the columns the
filters and aggregates consult: the alias-resolved location fields, the
status column (`status_col = "status_text"`), the type column
(`type_col = "type_name"`), and the `updated_at` timestamp (a naive UTC
instant, modelled in seconds; `none` when `pd.to_datetime` gave `NaT`). -/
structure Case where
  province : Option String
  district : Option String
  subdistrict : Option String
  status_text : Option String
  type_name : Option String
  updated_at : Option Nat
deriving Repr, DecidableEq

/-- `series.isin(sel)` at one cell: exact membership; a missing value
(`None`/`NaN`) is never a member of a list of strings. -/
def isinSel (v : Option String) (sel : List String) : Bool :=
  match v with
  | some s => sel.contains s
  | none => false

/-- A value the `filtered` variable of `main.py:163-175` can hold: a
DataFrame, or — after the slip at `main.py:172` — a boolean Series. -/
inductive PdObj where
  | frame : List Case → PdObj
  | series : List Bool → PdObj
deriving Repr, DecidableEq

/-- Cell of a named column; only these five column names are consulted
by the filters. -/
def colOf (c : String) (r : Case) : Option String :=
  if c = "province" then r.province
  else if c = "district" then r.district
  else if c = "subdistrict" then r.subdistrict
  else if c = "status_text" then r.status_text
  else if c = "type_name" then r.type_name
  else none

/-- `obj[label]` for a string label: the column of a DataFrame; on a
boolean Series (whose index holds row positions, not column labels) it
raises `KeyError`. -/
def getCol (o : PdObj) (c : String) : Except String (List (Option String)) :=
  match o with
  | .frame rows => .ok (rows.map (colOf c))
  | .series _ => .error "KeyError"

/-- Boolean-mask selection `obj[mask]`, elementwise. -/
def applyMask (l : List α) (m : List Bool) : List α :=
  ((l.zip m).filter (fun x => x.2)).map (fun x => x.1)

/-- Boolean-mask selection on either kind of pandas object. -/
def maskRows (o : PdObj) (m : List Bool) : PdObj :=
  match o with
  | .frame rows => .frame (applyMask rows m)
  | .series vs => .series (applyMask vs m)

/-- One healthy filter step `filtered = filtered[filtered[c].isin(sel)]`. -/
def isinStep (c : String) (sel : List String) (f : PdObj) : Except String PdObj :=
  match getCol f c with
  | .error e => .error e
  | .ok col => .ok (maskRows f (col.map (fun v => isinSel v sel)))

/-- The five multiselect selections (`prov_sel`, `dist_sel`,
`subdist_sel`, `status_sel`, `type_sel`); an empty list means the
column is not filtered. -/
structure Preds where
  prov : List String
  dist : List String
  subd : List String
  stat : List String
  typ : List String
deriving Repr, DecidableEq

/-- `main.py:163-175` applied to a table `df`. The status step follows
the source literally: `main.py:172` rebinds `filtered` to the boolean
mask itself, and `main.py:173` then evaluates `filtered[status_col]` on
that Series. -/
def filtered (P : Preds) (df : List Case) : Except String PdObj :=
  let f : PdObj := .frame df
  match (if P.prov.isEmpty then .ok f else isinStep "province" P.prov f) with
  | .error e => .error e
  | .ok f =>
  match (if P.dist.isEmpty then .ok f else isinStep "district" P.dist f) with
  | .error e => .error e
  | .ok f =>
  match (if P.subd.isEmpty then .ok f else isinStep "subdistrict" P.subd f) with
  | .error e => .error e
  | .ok f =>
  match (if P.stat.isEmpty then Except.ok f else
    match getCol f "status_text" with
    | .error e => .error e
    | .ok col =>
      let f := PdObj.series (col.map (fun v => isinSel v P.stat))
      match getCol f "status_text" with
      | .error e => .error e
      | .ok col2 => .ok (maskRows f (col2.map (fun v => isinSel v P.stat)))) with
  | .error e => .error e
  | .ok f =>
  (if P.typ.isEmpty then .ok f else isinStep "type_name" P.typ f)


namespace Summary

/-- `pages/Summary Dashboard.py:108-114`: the summary page's filter
(province, status, type only); each step is a plain boolean-mask row
selection. -/
def filtered (prov stat typ : List String) (df : List Case) : List Case :=
  let f := df
  let f := if prov.isEmpty then f else f.filter (fun r => isinSel r.province prov)
  let f := if stat.isEmpty then f else f.filter (fun r => isinSel r.status_text stat)
  if typ.isEmpty then f else f.filter (fun r => isinSel r.type_name typ)

end Summary

/-- `done_words` (`main.py:194`). -/
def done_words : List String := ["success", "completed", "done", "ช่วยเหลือแล้ว"]

/-- `astype(str)` at one cell of an object column: a missing value
prints as the string `"None"`. -/
def astypeStr : Option String → String
  | some s => s
  | none => "None"

/-- Lower-casing of one character, ASCII range. -/
def charLower (c : Char) : Char :=
  if 65 ≤ c.toNat ∧ c.toNat ≤ 90 then Char.ofNat (c.toNat + 32) else c

/-- Python's `str.lower()` on the strings compared here (ASCII letters
plus caseless scripts such as Thai, on which `str.lower` is the
identity). -/
def strLower (s : String) : String := String.mk (s.data.map charLower)

/-- One cell of `done_mask` (`main.py:196`). -/
def done_mask (v : Option String) : Bool :=
  done_words.contains (strLower (astypeStr v))

/-- `done_cases = done_mask.sum()` (`main.py:197`). -/
def done_cases (df : List Case) : Nat :=
  df.countP (fun r => done_mask r.status_text)

/-- `active_cases = total_cases - done_cases` (`main.py:198`). -/
def active_cases (df : List Case) : Nat := df.length - done_cases df

/-- The (province, district) group key of each row that has both
fields: pandas `groupby` drops a row whose key contains a missing
value. -/
def keyPairs (df : List Case) : List (String × String) :=
  df.filterMap (fun r =>
    match r.province, r.district with
    | some p, some d => some (p, d)
    | _, _ => none)

/-- Strict lexicographic comparison of character lists by code point —
how Python compares strings. -/
def charsLt : List Char → List Char → Bool
  | _, [] => false
  | [], _ :: _ => true
  | c :: cs, d :: ds =>
    if c.toNat < d.toNat then true
    else if d.toNat < c.toNat then false
    else charsLt cs ds

/-- Python's `a < b` on strings. -/
def strLt (a b : String) : Bool := charsLt a.data b.data

/-- Python's `a <= b` on strings. -/
def strLe (a b : String) : Bool := !(strLt b a)

/-- Ascending lexicographic order on (province, district) keys — the
order in which `groupby([...]).size()` emits its groups (Python tuple
comparison). -/
def keyLe (a b : String × String) : Prop :=
  (if a.1 = b.1 then strLe a.2 b.2 else strLt a.1 b.1) = true

instance keyLe.decRel : DecidableRel keyLe := fun a b => by
  unfold keyLe; exact inferInstance

/-- Descending order on group counts, used by
`sort_values("Total cases", ascending=False)`. -/
def countGe (a b : (String × String) × Nat) : Prop := b.2 ≤ a.2

instance countGe.decRel : DecidableRel countGe := fun a b => by
  unfold countGe; exact inferInstance

/-- `dist_counts` (`main.py:221-226`): one row per (province, district)
group, `groupby` emitting groups in ascending key order and dropping
rows with a missing key; then a sort by count, descending.
`sort_values` uses NumPy's default quicksort, which guarantees no order
among equal counts; the insertion sort here realises one admissible
outcome, so only tie-order-insensitive consequences are drawn from the
sorted result (concrete evaluations stay at sizes where NumPy's
introsort is insertion sort and the two coincide). -/
def dist_counts (df : List Case) : List ((String × String) × Nat) :=
  let pairs := keyPairs df
  let keys := List.insertionSort keyLe pairs.dedup
  List.insertionSort countGe (keys.map (fun k => (k, pairs.count k)))

/-- Distinct values of a list in order of first occurrence. -/
def dedupKeepFirst [DecidableEq α] (l : List α) : List α :=
  l.reverse.dedup.reverse

/-- Descending order on status counts (`value_counts()` sorts its
tallies descending). -/
def statusCountGe (a b : String × Nat) : Prop := b.2 ≤ a.2

instance statusCountGe.decRel : DecidableRel statusCountGe := fun a b => by
  unfold statusCountGe; exact inferInstance

/-- `status_counts` (`main.py:234-241`): the status column with missing
values filled as `"Unknown"`, tallied per distinct value (encounter
order) and sorted by count, descending. -/
def status_counts (df : List Case) : List (String × Nat) :=
  let vals := df.map (fun r => r.status_text.getD "Unknown")
  List.insertionSort statusCountGe
    ((dedupKeepFirst vals).map (fun k => (k, vals.count k)))

/-- Seconds per calendar day: `dt.normalize()` truncates a naive UTC
timestamp to its day. -/
def secondsPerDay : Nat := 86400

/-- Ascending order on (day, count) rows for `sort_values("date_only")`. -/
def dateLe (a b : Nat × Nat) : Prop := a.1 ≤ b.1

instance dateLe.decRel : DecidableRel dateLe := fun a b => by
  unfold dateLe; exact inferInstance

/-- `daily` (`pages/Summary Dashboard.py:143-157`): drop rows without a
usable `updated_at`, truncate each timestamp to its day, count rows per
day (`groupby` emits its keys ascending), then `sort_values` by date. -/
def daily (df : List Case) : List (Nat × Nat) :=
  let days := (df.filterMap (fun r => r.updated_at)).map
    (fun t => t / secondsPerDay)
  let grouped := (List.insertionSort (fun a b : Nat => a ≤ b) days.dedup).map
    (fun d => (d, days.count d))
  List.insertionSort dateLe grouped

/-- Modelled from the spec's words (§4.1): the record list a conforming
body carries — a top-level list, or the list under a list-valued `data`
key of a mapping; `none` is the `ShapeError` case. Written from the
contract, to be compared with the two loaders. -/
def specUsableRecords (raw : JValue) : Option (List JValue) :=
  match raw with
  | .jarr xs => some xs
  | .jobj kvs =>
    match kvs.lookup "data" with
    | some (.jarr xs) => some xs
    | _ => none
  | _ => none

/-- The group-counts aggregate as claim C3 words it: groups tallied per
(province, district) pair in encounter order of first occurrence, then
stably sorted by count descending — so ties keep encounter order. -/
def dist_counts_encounter (df : List Case) : List ((String × String) × Nat) :=
  let pairs := keyPairs df
  List.insertionSort countGe
    ((dedupKeepFirst pairs).map (fun k => (k, pairs.count k)))

/-- The conjunctive membership predicate the summary-page filter
applies: a column with an empty selection is not filtered. -/
def summaryPred (prov stat typ : List String) (r : Case) : Bool :=
  (prov.isEmpty || isinSel r.province prov)
    && (stat.isEmpty || isinSel r.status_text stat)
    && (typ.isEmpty || isinSel r.type_name typ)

/-- Number of rows whose `updated_at` is usable and falls on calendar
day `d` — the bucket size named by the daily-counts property. -/
def dayCount (df : List Case) (d : Nat) : Nat :=
  df.countP (fun r =>
    match r.updated_at with
    | some t => t / secondsPerDay == d
    | none => false)

/-- A row with province `"B"`, district `"b"` and nothing else. -/
def rowBb : Case := ⟨some "B", some "b", none, none, none, none⟩

/-- A row with province `"A"`, district `"a"` and nothing else. -/
def rowAa : Case := ⟨some "A", some "a", none, none, none, none⟩

/-- A row every parsed field of which is absent (e.g. built from a
record with no usable `location`). -/
def rowAbsent : Case := ⟨none, none, none, none, none, none⟩

/-- A row carrying only a status value. -/
def rowStatus (s : String) : Case := ⟨none, none, none, some s, none, none⟩

/-- A row carrying only an `updated_at` timestamp. -/
def rowUpdated (t : Nat) : Case := ⟨none, none, none, none, none, some t⟩

/-- The table of the done/active example: statuses
`["Success", "pending", "DONE", None]`. -/
def doneExampleTable : List Case :=
  [rowStatus "Success", rowStatus "pending", rowStatus "DONE", rowAbsent]

/-- Day number of 2024-01-01 (days since the epoch). -/
def day20240101 : Nat := 19723

/-- Day number of 2024-01-02. -/
def day20240102 : Nat := 19724

/-- The table of the daily-counts example: three rows updated on
2024-01-01, two on 2024-01-02 (at various times of day), and one row
with no usable timestamp. -/
def dailyExampleTable : List Case :=
  [rowUpdated (day20240102 * secondsPerDay),
   rowUpdated (day20240101 * secondsPerDay + 100),
   rowUpdated (day20240101 * secondsPerDay + 3600),
   rowUpdated (day20240102 * secondsPerDay + 50),
   rowUpdated (day20240101 * secondsPerDay),
   rowAbsent]

/-! ## Totality and transitivity of the count and date orders -/

instance countGe.isTotal : IsTotal ((String × String) × Nat) countGe :=
  ⟨fun a b => Nat.le_total b.2 a.2⟩

instance countGe.isTrans : IsTrans ((String × String) × Nat) countGe :=
  ⟨fun _ _ _ h₁ h₂ => Nat.le_trans h₂ h₁⟩

instance statusCountGe.isTotal : IsTotal (String × Nat) statusCountGe :=
  ⟨fun a b => Nat.le_total b.2 a.2⟩

instance statusCountGe.isTrans : IsTrans (String × Nat) statusCountGe :=
  ⟨fun _ _ _ h₁ h₂ => Nat.le_trans h₂ h₁⟩

instance dateLe.isTotal : IsTotal (Nat × Nat) dateLe :=
  ⟨fun a b => Nat.le_total a.1 b.1⟩

instance dateLe.isTrans : IsTrans (Nat × Nat) dateLe :=
  ⟨fun _ _ _ h₁ h₂ => Nat.le_trans h₁ h₂⟩

/-! ## Stability and counting lemmas for the aggregates -/

theorem dedupKeepFirst_nodup [DecidableEq α] (l : List α) :
    (dedupKeepFirst l).Nodup := by
  simpa [dedupKeepFirst, List.nodup_reverse] using l.reverse.nodup_dedup

theorem mem_dedupKeepFirst [DecidableEq α] {a : α} {l : List α} :
    a ∈ dedupKeepFirst l ↔ a ∈ l := by
  simp [dedupKeepFirst]

theorem dedupKeepFirst_perm_dedup [DecidableEq α] (l : List α) :
    List.Perm (dedupKeepFirst l) l.dedup := by
  refine (List.perm_ext_iff_of_nodup (dedupKeepFirst_nodup l) l.nodup_dedup).2 ?_
  intro a
  rw [mem_dedupKeepFirst, List.mem_dedup]

theorem sum_counts_over_keys [DecidableEq α] (vals keys : List α)
    (hperm : List.Perm keys vals.dedup) :
    (keys.map (fun k => vals.count k)).sum = vals.length :=
  ((hperm.map _).sum_eq).trans (List.sum_map_count_dedup_eq_length vals)

theorem keyPairs_length (df : List Case) :
    (keyPairs df).length
      = df.countP (fun r => r.province.isSome && r.district.isSome) := by
  induction df with
  | nil => rfl
  | cons r rs ih =>
    rcases r with ⟨p, d, _, _, _, _⟩
    cases p <;> cases d <;>
      simp [keyPairs, List.filterMap_cons, List.countP_cons, ih] <;>
      simp [keyPairs] at ih <;> omega

theorem dist_counts_perm (df : List Case) :
    List.Perm (dist_counts df)
      ((keyPairs df).dedup.map (fun k => (k, (keyPairs df).count k))) := by
  unfold dist_counts
  exact (List.perm_insertionSort countGe _).trans
    ((List.perm_insertionSort keyLe _).map _)

theorem filter_idem (p : α → Bool) (l : List α) :
    (l.filter p).filter p = l.filter p :=
  List.filter_eq_self.mpr (fun _ ha => (List.mem_filter.mp ha).2)

theorem applyMask_map (p : α → Bool) (l : List α) :
    applyMask l (l.map p) = l.filter p := by
  induction l with
  | nil => rfl
  | cons x xs ih =>
    simp only [List.map_cons, applyMask, List.zip_cons_cons, List.filter_cons]
    simp only [applyMask] at ih
    cases h : p x <;> simp [h, ih]

theorem isinStep_frame (c : String) (sel : List String) (rows : List Case) :
    isinStep c sel (.frame rows)
      = .ok (.frame (rows.filter (fun r => isinSel (colOf c r) sel))) := by
  simp only [isinStep, getCol, maskRows, List.map_map, applyMask_map]
  rfl

theorem summary_filtered_eq (prov stat typ : List String) (df : List Case) :
    Summary.filtered prov stat typ df = df.filter (summaryPred prov stat typ) := by
  unfold Summary.filtered summaryPred
  cases hp : prov.isEmpty <;> cases hs : stat.isEmpty <;> cases ht : typ.isEmpty <;>
    simp [hp, hs, ht, List.filter_filter, Bool.and_comm, Bool.and_left_comm,
      Bool.and_assoc]

theorem summary_filtered_idem (prov stat typ : List String) (df : List Case) :
    Summary.filtered prov stat typ (Summary.filtered prov stat typ df)
      = Summary.filtered prov stat typ df := by
  rw [summary_filtered_eq, summary_filtered_eq]
  exact filter_idem _ _

theorem por_jobj_empty (pk : List (String × JValue)) :
    por (.jobj pk) (.jobj []) = .jobj pk := by
  cases pk <;> rfl

theorem summary_agrees_core (loc : JValue) (out : NormalizedLocation)
    (h : parseLocCore loc = .ok out) :
    ∃ out2, Summary.parseLocCore loc = .ok out2 ∧
      out2.province = out.province ∧ out2.district = out.district ∧
      out2.subdistrict = out.subdistrict ∧ out2.type_name = out.type_name := by
  cases loc with
  | jobj kvs =>
    unfold parseLocCore at h
    simp only [pyGet] at h
    split at h
    next e heq => exact absurd h (by simp)
    next coords heq =>
    split at h
    next e heq2 => exact absurd h (by simp)
    next lon heq2 =>
    split at h
    next e heq3 => exact absurd h (by simp)
    next lat heq3 =>
    split at h
    next pk heq4 =>
      injection h with h
      subst h
      unfold Summary.parseLocCore
      simp only [pyGet]
      rw [heq4]
      exact ⟨_, rfl, rfl, rfl, rfl, rfl⟩
    next heq4 => exact absurd h (by simp)
  | jnull => simp [parseLocCore, pyGet] at h
  | jbool b => simp [parseLocCore, pyGet] at h
  | jnum n => simp [parseLocCore, pyGet] at h
  | jstr s => simp [parseLocCore, pyGet] at h
  | jarr xs => simp [parseLocCore, pyGet] at h

theorem dayList_count (df : List Case) (d : Nat) :
    ((df.filterMap (fun r => r.updated_at)).map (fun t => t / secondsPerDay)).count d
      = dayCount df d := by
  induction df with
  | nil => rfl
  | cons r rs ih =>
    unfold dayCount at ih ⊢
    cases hu : r.updated_at with
    | none => simp [List.filterMap_cons, hu, List.countP_cons, ih]
    | some t =>
      simp only [List.filterMap_cons, hu, List.map_cons, List.count_cons,
        List.countP_cons, ih]

theorem daily_eq_grouped (df : List Case) :
    daily df
      = (List.insertionSort (fun a b : Nat => a ≤ b)
          ((df.filterMap (fun r => r.updated_at)).map
            (fun t => t / secondsPerDay)).dedup).map
          (fun d => (d, ((df.filterMap (fun r => r.updated_at)).map
            (fun t => t / secondsPerDay)).count d)) := by
  unfold daily
  apply List.Sorted.insertionSort_eq
  apply List.pairwise_map.mpr
  exact List.sorted_insertionSort (fun a b : Nat => a ≤ b)
    ((df.filterMap (fun r => r.updated_at)).map (fun t => t / secondsPerDay)).dedup

theorem daily_sorted (df : List Case) :
    ((daily df).map Prod.fst).Sorted (fun a b : Nat => a < b) := by
  rw [daily_eq_grouped, List.map_map]
  have hs := List.sorted_insertionSort (fun a b : Nat => a ≤ b)
    ((df.filterMap (fun r => r.updated_at)).map (fun t => t / secondsPerDay)).dedup
  have hn : (List.insertionSort (fun a b : Nat => a ≤ b)
      ((df.filterMap (fun r => r.updated_at)).map
        (fun t => t / secondsPerDay)).dedup).Nodup :=
    ((List.perm_insertionSort _ _).nodup_iff).2 (List.nodup_dedup _)
  have hlt := (hs.and hn).imp (fun h => Nat.lt_of_le_of_ne h.1 h.2)
  simpa [Function.comp_def] using hlt

theorem daily_mem_iff (df : List Case) (d c : Nat) :
    (d, c) ∈ daily df ↔ 0 < dayCount df d ∧ c = dayCount df d := by
  rw [daily_eq_grouped]
  rw [List.mem_map]
  constructor
  · rintro ⟨k, hk, hkeq⟩
    rw [Prod.mk.injEq] at hkeq
    obtain ⟨rfl, rfl⟩ := hkeq
    rw [dayList_count]
    have hmem : k ∈ ((df.filterMap (fun r => r.updated_at)).map
        (fun t => t / secondsPerDay)) := by
      have := (List.mem_insertionSort (fun a b : Nat => a ≤ b)).mp hk
      exact (List.mem_dedup).mp this
    exact ⟨by rw [← dayList_count]; exact List.count_pos_iff.mpr hmem, rfl⟩
  · rintro ⟨hpos, rfl⟩
    refine ⟨d, ?_, by rw [dayList_count]⟩
    rw [List.mem_insertionSort, List.mem_dedup]
    rw [← dayList_count] at hpos
    exact List.count_pos_iff.mp hpos

theorem sum_map_add_nat (f g : (String × String) → Nat)
    (keys : List (String × String)) :
    (keys.map (fun k => f k + g k)).sum = (keys.map f).sum + (keys.map g).sum := by
  induction keys with
  | nil => rfl
  | cons b ks ih => simp [ih]; omega

theorem sum_map_ite_eq_count (a : String × String)
    (keys : List (String × String)) :
    (keys.map (fun k => if a == k then 1 else 0)).sum = keys.count a := by
  induction keys with
  | nil => rfl
  | cons b ks ih =>
    rw [List.map_cons, List.sum_cons, List.count_cons, ih]
    by_cases h : a = b
    · subst h; simp [Nat.add_comm]
    · rw [beq_eq_false_iff_ne.mpr h, beq_eq_false_iff_ne.mpr (Ne.symm h)]
      simp

theorem count_eq_one_of_nodup_mem {l : List (String × String)}
    {a : String × String} (hn : l.Nodup) (h : a ∈ l) : l.count a = 1 := by
  induction l with
  | nil => cases h
  | cons b ks ih =>
    rw [List.count_cons]
    rcases List.mem_cons.mp h with rfl | hmem
    · rw [List.count_eq_zero.mpr (List.nodup_cons.mp hn).1, beq_self_eq_true]
      rfl
    · have hne : b ≠ a := by
        intro he
        exact (List.nodup_cons.mp hn).1 (he ▸ hmem)
      rw [ih (List.nodup_cons.mp hn).2 hmem, beq_eq_false_iff_ne.mpr hne]
      simp

theorem pairSum_count_dedup (l : List (String × String)) :
    (l.dedup.map (fun k => l.count k)).sum = l.length := by
  induction l with
  | nil => rfl
  | cons a l ih =>
    have hstep : ∀ keys : List (String × String),
        (keys.map (fun k => (a :: l).count k)).sum
          = (keys.map (fun k => l.count k)).sum
            + (keys.map (fun k => if a == k then 1 else 0)).sum := by
      intro keys
      have hf : (fun k => (a :: l).count k)
          = (fun k : String × String => l.count k + if a == k then 1 else 0) := by
        funext k
        rw [List.count_cons]
      rw [hf, sum_map_add_nat]
    by_cases h : a ∈ l
    · rw [List.dedup_cons_of_mem h, hstep, ih, sum_map_ite_eq_count,
        count_eq_one_of_nodup_mem l.nodup_dedup (List.mem_dedup.mpr h),
        List.length_cons]
    · rw [List.dedup_cons_of_not_mem h, List.map_cons, List.sum_cons, hstep, ih,
        sum_map_ite_eq_count, List.count_eq_zero.mpr (fun hc => h (List.mem_dedup.mp hc)),
        List.count_cons, List.count_eq_zero.mpr h, beq_self_eq_true, List.length_cons]
      simp [Nat.add_comm]

theorem dist_counts_sorted (df : List Case) :
    (dist_counts df).Pairwise countGe :=
  List.sorted_insertionSort countGe _

theorem dist_counts_mem_key (df : List Case) (p d : String) :
    (p, d) ∈ (dist_counts df).map (fun e => e.1) ↔ (p, d) ∈ keyPairs df := by
  have hperm := (dist_counts_perm df).map (fun e => e.1)
  rw [hperm.mem_iff, List.map_map]
  simp [Function.comp_def, List.mem_dedup]

theorem dist_counts_key_nodup (df : List Case) :
    ((dist_counts df).map (fun e => e.1)).Nodup := by
  have hperm := (dist_counts_perm df).map (fun e => e.1)
  rw [hperm.nodup_iff, List.map_map]
  simpa [Function.comp_def] using (keyPairs df).nodup_dedup

theorem dist_counts_count (df : List Case) (e : (String × String) × Nat)
    (he : e ∈ dist_counts df) : e.2 = (keyPairs df).count e.1 := by
  have hmem := (dist_counts_perm df).mem_iff.mp he
  rcases List.mem_map.mp hmem with ⟨k, _, hkeq⟩
  subst hkeq
  rfl

theorem dist_counts_sum (df : List Case) :
    ((dist_counts df).map (fun e => e.2)).sum
      = df.countP (fun r => r.province.isSome && r.district.isSome) := by
  have hperm := (dist_counts_perm df).map (fun e => e.2)
  rw [hperm.sum_eq, List.map_map, ← keyPairs_length]
  simpa [Function.comp_def] using pairSum_count_dedup (keyPairs df)

theorem status_counts_sum (df : List Case) :
    ((status_counts df).map (fun e => e.2)).sum = df.length := by
  unfold status_counts
  rw [((List.perm_insertionSort statusCountGe _).map (fun e => e.2)).sum_eq,
    List.map_map]
  have h2 := sum_counts_over_keys (df.map (fun r => r.status_text.getD "Unknown"))
    (dedupKeepFirst (df.map (fun r => r.status_text.getD "Unknown")))
    (dedupKeepFirst_perm_dedup _)
  simpa [Function.comp_def] using h2.trans (List.length_map _ _)

/-! ## The claims -/

/-- Claim C1, counterexample: `parse_location` is not total — a mapping
whose `geometry.coordinates` is a too-short list makes `coords[0]`
raise an `IndexError` (`main.py:82-83`), instead of leaving longitude
and latitude absent. -/
theorem C1_counterexample :
    parse_location (fun _ => none)
      (.jobj [("geometry", .jobj [("coordinates", .jarr [])])])
      = .error "IndexError" := rfl

/-- Claim C1, amended: `parse_location` never raises on `None`, on
non-string non-mapping inputs, or on strings `json.loads` rejects (all
fields absent there), and when `geometry` or `geometry.coordinates` is
absent the longitude and latitude stay absent; but it is not total — a
present-but-malformed `coordinates` value raises (see the
counterexample). -/
theorem C1_amended (jsonLoads : String → Option JValue) :
    (parse_location jsonLoads .jnull = .ok emptyLoc)
  ∧ (∀ b, parse_location jsonLoads (.jbool b) = .ok emptyLoc)
  ∧ (∀ n, parse_location jsonLoads (.jnum n) = .ok emptyLoc)
  ∧ (∀ xs, parse_location jsonLoads (.jarr xs) = .ok emptyLoc)
  ∧ (∀ s, jsonLoads s = none → parse_location jsonLoads (.jstr s) = .ok emptyLoc)
  ∧ (∀ kvs out, kvs.lookup "geometry" = none →
      parse_location jsonLoads (.jobj kvs) = .ok out →
      out.longitude = .jnull ∧ out.latitude = .jnull)
  ∧ (∀ kvs gkvs out, kvs.lookup "geometry" = some (.jobj gkvs) →
      gkvs.lookup "coordinates" = none →
      parse_location jsonLoads (.jobj kvs) = .ok out →
      out.longitude = .jnull ∧ out.latitude = .jnull) := by
  have hidx0 : pyIndex (.jarr [.jnull, .jnull]) 0 = .ok .jnull := rfl
  have hidx1 : pyIndex (.jarr [.jnull, .jnull]) 1 = .ok .jnull := rfl
  have hnil : List.lookup "coordinates" ([] : List (String × JValue)) = none := rfl
  refine ⟨rfl, fun b => rfl, fun n => rfl, fun xs => rfl, ?_, ?_, ?_⟩
  · intro s h
    simp [parse_location, h]
  · intro kvs out hg hp
    unfold parse_location parseLocCore at hp
    simp only [pyGet, hg, hnil, Option.getD, hidx0, hidx1] at hp
    split at hp
    next pk heq =>
      injection hp with hp
      subst hp
      exact ⟨rfl, rfl⟩
    next heq => exact absurd hp (by simp)
  · intro kvs gkvs out hg hc hp
    unfold parse_location parseLocCore at hp
    simp only [pyGet, hg, hc, Option.getD, hidx0, hidx1] at hp
    split at hp
    next pk heq =>
      injection hp with hp
      subst hp
      exact ⟨rfl, rfl⟩
    next heq => exact absurd hp (by simp)

/-- Witness for `C1_amended`: a string `json.loads` rejects yields the
all-absent record. -/
theorem C1_amended_witness :
    parse_location (fun _ => none) (.jstr "not json") = .ok emptyLoc :=
  (C1_amended (fun _ => none)).2.2.2.2.1 "not json" rfl

/-- Claim C2, evaluation of the bug and of the intended property: with a
non-empty status selection the main page's filter raises a `KeyError`
(`main.py:172` rebinds `filtered` to the boolean mask, `main.py:173`
then indexes the mask by the column label), so it returns no table at
all; the summary page's filter — the same conjunctive membership filter
written correctly — is idempotent for every table and predicate. -/
theorem C2_filter_status :
    filtered ⟨[], [], [], ["A"], []⟩ [rowStatus "A"] = .error "KeyError"
  ∧ (∀ (prov stat typ : List String) (T : List Case),
      Summary.filtered prov stat typ (Summary.filtered prov stat typ T)
        = Summary.filtered prov stat typ T) :=
  ⟨rfl, summary_filtered_idem⟩

/-- Claim C3, counterexample: with equal counts, `dist_counts` orders
groups by ascending (province, district) key — `groupby` emits groups
in sorted key order — not by first-occurrence encounter order: the
table `[rowBb, rowAa]` encounters ("B", "b") first, yet the aggregate
lists ("A", "a") first; the encounter-order aggregate the claim words
would give the opposite order. -/
theorem C3_counterexample :
    dist_counts [rowBb, rowAa] = [(("A", "a"), 1), (("B", "b"), 1)]
  ∧ dist_counts_encounter [rowBb, rowAa] = [(("B", "b"), 1), (("A", "a"), 1)]
  ∧ keyPairs [rowBb, rowAa] = [("B", "b"), ("A", "a")] :=
  ⟨by decide, by decide, by decide⟩

/-- Claim C3, amended: `dist_counts` has one row per distinct
(province, district) pair of the rows carrying both fields, each with
its exact count, sorted descending by count; the relative order of
equal-count pairs is not the encounter order of first occurrence (see
the counterexample), and — `sort_values` defaulting to an unstable
quicksort — the program fixes no tie order at all, so none is
asserted. -/
theorem C3_group_counts (df : List Case) :
    ((dist_counts df).map (fun e => e.1)).Nodup
  ∧ (∀ p d, (p, d) ∈ (dist_counts df).map (fun e => e.1) ↔ (p, d) ∈ keyPairs df)
  ∧ (∀ e ∈ dist_counts df, e.2 = (keyPairs df).count e.1)
  ∧ (dist_counts df).Pairwise countGe :=
  ⟨dist_counts_key_nodup df, dist_counts_mem_key df, dist_counts_count df,
   dist_counts_sorted df⟩

/-- Witness for `C3_group_counts`: the count column of the one-row table
`[rowAa]` is the exact pair count. -/
theorem C3_group_counts_witness :
    ((("A", "a"), 1) : (String × String) × Nat).2
      = (keyPairs [rowAa]).count ((("A", "a"), 1) : (String × String) × Nat).1 :=
  (C3_group_counts [rowAa]).2.2.1 (("A", "a"), 1) (by decide)

/-- Claim C4, counterexample: a row with absent province and district is
dropped by `groupby`, so the group counts of the one-row table
`[rowAbsent]` sum to 0, not to the row count 1 (the status counts do
sum to 1). -/
theorem C4_counterexample :
    ((dist_counts [rowAbsent]).map (fun e => e.2)).sum = 0
  ∧ ([rowAbsent] : List Case).length = 1
  ∧ ((status_counts [rowAbsent]).map (fun e => e.2)).sum = 1 :=
  ⟨by decide, by decide, by decide⟩

/-- Claim C4, amended: the per-(province, district) group counts sum to
the number of rows carrying both a province and a district (`groupby`
drops null-keyed rows), and the per-status counts (absent mapped to
"Unknown") sum to the full row count. -/
theorem C4_sum_invariants (df : List Case) :
    ((dist_counts df).map (fun e => e.2)).sum
        = df.countP (fun r => r.province.isSome && r.district.isSome)
  ∧ ((status_counts df).map (fun e => e.2)).sum = df.length :=
  ⟨dist_counts_sum df, status_counts_sum df⟩

/-- Claim C5, counterexample: for the decoded body `{"data": "x"}` —
a mapping whose `data` is not a list — the main page's loader signals a
shape error (no records), but the summary page's loader happily uses
the non-list value, so the claim's "otherwise the refresh fails" is
false of it. -/
theorem C5_counterexample :
    extractRecords (.jobj [("data", .jstr "x")]) = none
  ∧ Summary.extractRecords (.jobj [("data", .jstr "x")]) = .jstr "x" :=
  ⟨rfl, rfl⟩

/-- Claim C5, amended: the main page's loader satisfies the contract
exactly — it uses the list under a list-valued `data` key or a
top-level list and signals a shape error (empty table, no rows)
otherwise; the summary page's loader performs no shape validation and
uses whatever value `data` holds whenever the key is present. -/
theorem C5_amended :
    (∀ raw, extractRecords raw = specUsableRecords raw)
  ∧ (∀ kvs v, kvs.lookup "data" = some v →
      Summary.extractRecords (.jobj kvs) = v) := by
  constructor
  · intro raw
    cases raw with
    | jobj kvs =>
      unfold extractRecords specUsableRecords
      cases h : kvs.lookup "data" with
      | none => simp [h]
      | some v => cases v <;> simp [h]
    | jnull => rfl
    | jbool b => rfl
    | jnum n => rfl
    | jstr s => rfl
    | jarr xs => rfl
  · intro kvs v h
    unfold Summary.extractRecords
    simp [h]

/-- Witness for `C5_amended`: the summary loader passes a non-list
`data` value through. -/
theorem C5_amended_witness :
    Summary.extractRecords (.jobj [("data", .jstr "x")]) = .jstr "x" :=
  C5_amended.2 [("data", .jstr "x")] (.jstr "x") rfl

/-- Claim C6: a payload whose properties carry only `sos_status = v`
normalizes with `status = v` (sos_status backfills the absent status)
and `status_text = v` (status then backfills the absent status_text). -/
theorem C6_sos_backfill (jsonLoads : String → Option JValue) (v : String) :
    parse_location jsonLoads
      (.jobj [("properties", .jobj [("sos_status", .jstr v)])])
      = .ok ⟨.jnull, .jnull, .jstr v, .jstr v, .jnull, .jnull, .jnull, .jnull,
             .jnull, .jnull, .jstr v⟩ := rfl

/-- Claim C7: province alias resolution is fixed-priority, first
non-empty wins — with only `changwat` non-empty the result is the
`changwat` value, and with both `province` and `changwat` non-empty the
`province` value wins. -/
theorem C7_province_alias (jsonLoads : String → Option JValue)
    (pk : List (String × JValue)) (c p : String) :
    ((pget pk "province").truthy = false →
     (pget pk "province_name").truthy = false →
     pget pk "changwat" = .jstr c → c ≠ "" →
     ∃ out, parse_location jsonLoads (.jobj [("properties", .jobj pk)]) = .ok out ∧
       out.province = .jstr c)
  ∧ (pget pk "province" = .jstr p → p ≠ "" →
     pget pk "changwat" = .jstr c → c ≠ "" →
     ∃ out, parse_location jsonLoads (.jobj [("properties", .jobj pk)]) = .ok out ∧
       out.province = .jstr p) := by
  have hg : List.lookup "geometry" [("properties", JValue.jobj pk)] = none := rfl
  have hpr : List.lookup "properties" [("properties", JValue.jobj pk)]
      = some (.jobj pk) := rfl
  have hidx0 : pyIndex (.jarr [.jnull, .jnull]) 0 = .ok .jnull := rfl
  have hidx1 : pyIndex (.jarr [.jnull, .jnull]) 1 = .ok .jnull := rfl
  have hnil : List.lookup "coordinates" ([] : List (String × JValue)) = none := rfl
  constructor
  · intro h1 h2 hc _
    unfold parse_location parseLocCore
    simp only [pyGet, hg, hpr, hnil, Option.getD, hidx0, hidx1, por_jobj_empty]
    refine ⟨_, rfl, ?_⟩
    simp [por, h1, h2, hc]
  · intro hpv hne _ _
    unfold parse_location parseLocCore
    simp only [pyGet, hg, hpr, hnil, Option.getD, hidx0, hidx1, por_jobj_empty]
    refine ⟨_, rfl, ?_⟩
    simp [por, hpv, JValue.truthy, hne]

/-- Witness for `C7_province_alias`: `changwat` alone yields its value;
with `province` also set, `province` wins. -/
theorem C7_province_alias_witness :
    (∃ out, parse_location (fun _ => none)
        (.jobj [("properties", .jobj [("changwat", .jstr "B")])]) = .ok out ∧
      out.province = .jstr "B")
  ∧ (∃ out, parse_location (fun _ => none)
        (.jobj [("properties",
          .jobj [("province", .jstr "A"), ("changwat", .jstr "B")])]) = .ok out ∧
      out.province = .jstr "A") :=
  ⟨(C7_province_alias (fun _ => none) [("changwat", .jstr "B")] "B" "A").1
      rfl rfl rfl (by decide),
   (C7_province_alias (fun _ => none)
        [("province", .jstr "A"), ("changwat", .jstr "B")] "B" "A").2
      rfl (by decide) rfl (by decide)⟩

/-- Claim C8: a row is "done" iff its status, lower-cased, is exactly a
member of the fixed vocabulary (absent status is active), active cases
complement done cases, and on statuses
`["Success", "pending", "DONE", None]` the split is 2 done / 2 active. -/
theorem C8_done_active (df : List Case) :
    (∀ v : Option String, done_mask v = true ↔
        ∃ s, v = some s ∧ strLower s ∈ done_words)
  ∧ done_cases df + active_cases df = df.length
  ∧ done_mask none = false
  ∧ done_cases doneExampleTable = 2
  ∧ active_cases doneExampleTable = 2 := by
  refine ⟨?_, ?_, by decide, by decide, by decide⟩
  · intro v
    cases v with
    | none =>
      constructor
      · intro h
        exact absurd h (by decide)
      · rintro ⟨s, hs, _⟩
        cases hs
    | some s =>
      simp only [done_mask, astypeStr]
      constructor
      · intro h
        exact ⟨s, rfl, List.elem_iff.mp h⟩
      · rintro ⟨s2, hs2, hmem⟩
        injection hs2 with hs2
        subst hs2
        exact List.elem_iff.mpr hmem
  · have hle : done_cases df ≤ df.length := List.countP_le_length _
    unfold active_cases
    omega

/-- Witness for `C8_done_active`: "Success" lower-cases into the done
vocabulary. -/
theorem C8_done_active_witness : done_mask (some "Success") = true :=
  ((C8_done_active []).1 (some "Success")).mpr ⟨"Success", rfl, by decide⟩

/-- Claim C9: the daily aggregate excludes rows without a usable
`updated_at`, buckets the rest by calendar day with exact counts,
returns the buckets in strictly ascending date order, and on the
example table (3 rows on 2024-01-01, 2 on 2024-01-02, 1 without a
timestamp) yields `[(2024-01-01, 3), (2024-01-02, 2)]`. -/
theorem C9_daily_counts (df : List Case) :
    ((daily df).map Prod.fst).Sorted (fun a b : Nat => a < b)
  ∧ (∀ d c, (d, c) ∈ daily df ↔ 0 < dayCount df d ∧ c = dayCount df d)
  ∧ daily dailyExampleTable = [(day20240101, 3), (day20240102, 2)] :=
  ⟨daily_sorted df, daily_mem_iff df, by decide⟩

/-- Witness for `C9_daily_counts`: the 2024-01-01 bucket of the example
table holds exactly its three rows. -/
theorem C9_daily_counts_witness :
    (day20240101, 3) ∈ daily dailyExampleTable :=
  ((C9_daily_counts dailyExampleTable).2.1 day20240101 3).mpr
    ⟨by decide, by decide⟩

/-- Claim C10, counterexample: the two parsers do not agree on every
input — on a payload with an empty `coordinates` list and a usable
province, the main parser raises an `IndexError` while the summary
parser (which never reads geometry) returns the province. -/
theorem C10_counterexample :
    parse_location (fun _ => none)
      (.jobj [("geometry", .jobj [("coordinates", .jarr [])]),
              ("properties", .jobj [("province", .jstr "A")])])
      = .error "IndexError"
  ∧ Summary.parse_location (fun _ => none)
      (.jobj [("geometry", .jobj [("coordinates", .jarr [])]),
              ("properties", .jobj [("province", .jstr "A")])])
      = .ok ⟨.jstr "A", .jnull, .jnull, .jnull, .jnull⟩ :=
  ⟨rfl, rfl⟩

/-- Claim C10, amended: whenever the main page's parser returns a
result at all, the summary page's parser returns one too, and the two
agree on province, district, subdistrict and type_name. -/
theorem C10_parsers_agree (jsonLoads : String → Option JValue) (v : JValue)
    (out : NormalizedLocation) (h : parse_location jsonLoads v = .ok out) :
    ∃ out2, Summary.parse_location jsonLoads v = .ok out2 ∧
      out2.province = out.province ∧ out2.district = out.district ∧
      out2.subdistrict = out.subdistrict ∧ out2.type_name = out.type_name := by
  cases v with
  | jstr s =>
    cases hj : jsonLoads s with
    | none =>
      simp only [parse_location, hj] at h
      injection h with h
      subst h
      refine ⟨Summary.emptyLoc, ?_, rfl, rfl, rfl, rfl⟩
      simp only [Summary.parse_location, hj]
    | some loc =>
      simp only [parse_location, hj] at h
      rcases summary_agrees_core loc out h with ⟨out2, h2, hf⟩
      refine ⟨out2, ?_, hf⟩
      simp only [Summary.parse_location, hj]
      exact h2
  | jobj kvs => exact summary_agrees_core (.jobj kvs) out h
  | jnull =>
    injection h with h
    subst h
    exact ⟨_, rfl, rfl, rfl, rfl, rfl⟩
  | jbool b =>
    injection h with h
    subst h
    exact ⟨_, rfl, rfl, rfl, rfl, rfl⟩
  | jnum n =>
    injection h with h
    subst h
    exact ⟨_, rfl, rfl, rfl, rfl, rfl⟩
  | jarr xs =>
    injection h with h
    subst h
    exact ⟨_, rfl, rfl, rfl, rfl, rfl⟩

/-- Witness for `C10_parsers_agree`: on a `None` location both parsers
return their all-absent records, which agree on the shared fields. -/
theorem C10_parsers_agree_witness :
    ∃ out2, Summary.parse_location (fun _ => none) .jnull = .ok out2 ∧
      out2.province = emptyLoc.province ∧ out2.district = emptyLoc.district ∧
      out2.subdistrict = emptyLoc.subdistrict ∧
      out2.type_name = emptyLoc.type_name :=
  C10_parsers_agree (fun _ => none) .jnull emptyLoc rfl
